import Mathlib

/-!
Verification of the `bt-a2dp-agent` repository (`src/a2dp_agent.py`), a
BlueZ pairing agent that authorizes only the A2DP service.

The agent's D-Bus callbacks are pure apart from logging, so each is
embedded as a function returning `Except DBusError α`: `Except.ok` is a
normal return, `Except.error` a raised `DBusError`.  The startup
coroutine `_run` is embedded as a trace-producing function over an
environment that says which external bus operations succeed, and `main`'s
exception handling as a function from the run outcome to the process exit
code.
-/

namespace BtA2dpAgent

/-- A raised `dbus_fast.DBusError`: its error name and message. -/
structure DBusError where
  name : String
  message : String
deriving DecidableEq, Repr

/-- `src/a2dp_agent.py` line 13. -/
def A2DP_UUID : String := "0000110d-0000-1000-8000-00805f9b34fb"

/-- `src/a2dp_agent.py` line 15. -/
def DBUS_PROPERTIES_INTERFACE : String := "org.freedesktop.DBus.Properties"

/-- `src/a2dp_agent.py` line 17. -/
def BLUEZ_AGENT_INTERFACE : String := "org.bluez.Agent1"

/-- `src/a2dp_agent.py` line 19. -/
def BLUEZ_ADAPTER_INTERFACE : String := "org.bluez.Adapter1"

/-- `src/a2dp_agent.py` line 21. -/
def BLUEZ_BUS_NAME : String := "org.bluez"

/-- `src/a2dp_agent.py` line 22. -/
def BLUEZ_BUS_PATH : String := "/org/bluez"

/-- `src/a2dp_agent.py` line 24. -/
def AGENT_PATH : String := "/local/ad2pagent"

/-- The error both rejecting callbacks raise:
`DBusError('org.bluez.Error.Rejected', 'Connection rejected')`. -/
def rejectedError : DBusError :=
  { name := "org.bluez.Error.Rejected", message := "Connection rejected" }

namespace A2dpAgent

/-- `Release(self)`: `pass` — returns normally with no value. -/
def Release : Except DBusError Unit := Except.ok ()

/-- `AuthorizeService(self, device, uuid)`: return normally when
`uuid == A2DP_UUID`, else raise `org.bluez.Error.Rejected`.  Logging and
the stray `print` do not affect the result. -/
def AuthorizeService (device uuid : String) : Except DBusError Unit :=
  if uuid = A2DP_UUID then Except.ok ()
  else Except.error rejectedError

/-- `RequestPinCode(self, device)`: `return "0000"`. -/
def RequestPinCode (device : String) : Except DBusError String :=
  Except.ok "0000"

/-- `DisplayPinCode(self, device, pincode)`: logs only, returns `None`. -/
def DisplayPinCode (device pincode : String) : Except DBusError Unit :=
  Except.ok ()

/-- `RequestPasskey(self, device)`: `return 0000`, the Python integer 0. -/
def RequestPasskey (device : String) : Except DBusError Nat :=
  Except.ok 0

/-- `DisplayPasskey(self, device, passkey, _entered)`: logs only. -/
def DisplayPasskey (device : String) (passkey entered : Nat) :
    Except DBusError Unit :=
  Except.ok ()

/-- `RequestConfirmation(self, device, passkey)`: logs only, returns
`None` (implicit accept). -/
def RequestConfirmation (device : String) (passkey : Nat) :
    Except DBusError Unit :=
  Except.ok ()

/-- `RequestAuthorization(self, device)`: always raises
`org.bluez.Error.Rejected`. -/
def RequestAuthorization (device : String) : Except DBusError Unit :=
  Except.error rejectedError

/-- `Cancel(self)`: `pass`. -/
def Cancel : Except DBusError Unit := Except.ok ()

end A2dpAgent

/-- The instance state of an `A2dpAgent` object.  `__init__` only passes
the interface name to `ServiceInterface.__init__`; the class declares no
other field and no method assigns any attribute. -/
structure AgentState where
  interfaceName : String
deriving DecidableEq, Repr

/-- The state `A2dpAgent()` starts in. -/
def initState : AgentState := { interfaceName := BLUEZ_AGENT_INTERFACE }

/-- One inbound invocation of an agent callback, with its arguments. -/
inductive Call where
  | release
  | authorizeService (device uuid : String)
  | requestPinCode (device : String)
  | displayPinCode (device pincode : String)
  | requestPasskey (device : String)
  | displayPasskey (device : String) (passkey entered : Nat)
  | requestConfirmation (device : String) (passkey : Nat)
  | requestAuthorization (device : String)
  | cancel
deriving DecidableEq, Repr

/-- The value the transport sends back for one callback invocation. -/
inductive Reply where
  | unitReply
  | strReply (s : String)
  | natReply (n : Nat)
  | errReply (e : DBusError)
deriving DecidableEq, Repr

/-- Collapse a callback result into the transport-level reply. -/
def replyUnit (r : Except DBusError Unit) : Reply :=
  match r with
  | Except.ok _ => Reply.unitReply
  | Except.error e => Reply.errReply e

/-- Dispatch one inbound call on an agent instance: the reply sent back
and the instance state afterwards.  No method of `A2dpAgent` assigns any
attribute, so the state passes through unchanged. -/
def handle (st : AgentState) (c : Call) : Reply × AgentState :=
  match c with
  | Call.release => (replyUnit A2dpAgent.Release, st)
  | Call.authorizeService d u => (replyUnit (A2dpAgent.AuthorizeService d u), st)
  | Call.requestPinCode d =>
      (match A2dpAgent.RequestPinCode d with
       | Except.ok s => Reply.strReply s
       | Except.error e => Reply.errReply e, st)
  | Call.displayPinCode d p => (replyUnit (A2dpAgent.DisplayPinCode d p), st)
  | Call.requestPasskey d =>
      (match A2dpAgent.RequestPasskey d with
       | Except.ok n => Reply.natReply n
       | Except.error e => Reply.errReply e, st)
  | Call.displayPasskey d p n => (replyUnit (A2dpAgent.DisplayPasskey d p n), st)
  | Call.requestConfirmation d p => (replyUnit (A2dpAgent.RequestConfirmation d p), st)
  | Call.requestAuthorization d => (replyUnit (A2dpAgent.RequestAuthorization d), st)
  | Call.cancel => (replyUnit A2dpAgent.Cancel, st)

/-- The agent state after a sequence of inbound calls. -/
def runCalls (st : AgentState) (cs : List Call) : AgentState :=
  cs.foldl (fun s c => (handle s c).2) st

/-- A `dbus_fast.Variant` value as written by `_run`: `Variant('u', n)`
is an unsigned integer, `Variant('b', v)` a boolean. -/
inductive Variant where
  | u (n : Nat)
  | b (v : Bool)
deriving DecidableEq, Repr

/-- An externally visible step of the startup coroutine `_run`. -/
inductive Effect where
  | connectBus
  | introspect (busName path : String)
  | setProperty (interface prop : String) (value : Variant)
  | exportAgent (path : String)
  | registerAgent (path capability : String)
  | requestDefaultAgent (path : String)
  | waitForDisconnect
deriving DecidableEq, Repr

/-- Which external bus operations succeed during one startup, and whether
a `KeyboardInterrupt` arrives during the blocking wait.  `bus.export` is a
local operation and cannot fail remotely. -/
structure Env where
  connectOk : Bool
  introspectAdapterOk : Bool
  setDiscoverableTimeoutOk : Bool
  setDiscoverableOk : Bool
  introspectBluezOk : Bool
  registerAgentOk : Bool
  requestDefaultAgentOk : Bool
  interruptDuringWait : Bool
deriving DecidableEq, Repr

/-- How one run of `_run` under `main` ends. -/
inductive RunOutcome where
  | completed
  | interrupted
  | fatal (step : Effect)
deriving DecidableEq, Repr

/-- The startup coroutine `_run(args)` (lines 79-109): the sequence of
external effects it attempts, in source order, and how it ends.  Each
awaited bus operation that fails raises, aborting the sequence at that
step. -/
def runStartup (device : String) (env : Env) : List Effect × RunOutcome :=
  let e1 := Effect.connectBus
  if !env.connectOk then ([e1], RunOutcome.fatal e1) else
  let e2 := Effect.introspect BLUEZ_BUS_NAME (BLUEZ_BUS_PATH ++ "/" ++ device)
  if !env.introspectAdapterOk then ([e1, e2], RunOutcome.fatal e2) else
  let e3 := Effect.setProperty BLUEZ_ADAPTER_INTERFACE "DiscoverableTimeout" (Variant.u 0)
  if !env.setDiscoverableTimeoutOk then ([e1, e2, e3], RunOutcome.fatal e3) else
  let e4 := Effect.setProperty BLUEZ_ADAPTER_INTERFACE "Discoverable" (Variant.b true)
  if !env.setDiscoverableOk then ([e1, e2, e3, e4], RunOutcome.fatal e4) else
  let e5 := Effect.introspect BLUEZ_BUS_NAME BLUEZ_BUS_PATH
  if !env.introspectBluezOk then ([e1, e2, e3, e4, e5], RunOutcome.fatal e5) else
  let e6 := Effect.exportAgent AGENT_PATH
  let e7 := Effect.registerAgent AGENT_PATH "NoInputNoOutput"
  if !env.registerAgentOk then ([e1, e2, e3, e4, e5, e6, e7], RunOutcome.fatal e7) else
  let e8 := Effect.requestDefaultAgent AGENT_PATH
  if !env.requestDefaultAgentOk then
    ([e1, e2, e3, e4, e5, e6, e7, e8], RunOutcome.fatal e8) else
  let e9 := Effect.waitForDisconnect
  ([e1, e2, e3, e4, e5, e6, e7, e8, e9],
   if env.interruptDuringWait then RunOutcome.interrupted else RunOutcome.completed)

/-- Every startup step of `_run` succeeded (lines 81-107). -/
def startupOk (env : Env) : Bool :=
  env.connectOk && env.introspectAdapterOk && env.setDiscoverableTimeoutOk &&
  env.setDiscoverableOk && env.introspectBluezOk && env.registerAgentOk &&
  env.requestDefaultAgentOk

/-- The process exit code produced by `main` (lines 112-130):
`asyncio.run(_run(args))` inside `try ... except KeyboardInterrupt: pass`.
A caught interrupt and a completed run both fall through to a normal
return (exit 0); any other escaping exception terminates Python with
exit code 1. -/
def exitCode (device : String) (env : Env) : Nat :=
  match (runStartup device env).2 with
  | RunOutcome.completed => 0
  | RunOutcome.interrupted => 0
  | RunOutcome.fatal _ => 1

/-- An environment where every external operation succeeds and the wait
ends with a bus disconnect. -/
def allOk : Env :=
  { connectOk := true, introspectAdapterOk := true,
    setDiscoverableTimeoutOk := true, setDiscoverableOk := true,
    introspectBluezOk := true, registerAgentOk := true,
    requestDefaultAgentOk := true, interruptDuringWait := false }

/-- All startup succeeds and a `KeyboardInterrupt` arrives during the
blocking wait. -/
def envInterrupt : Env :=
  { allOk with interruptDuringWait := true }

/-- Introspection of the adapter object fails (adapter not resolvable). -/
def envAdapterFail : Env :=
  { allOk with introspectAdapterOk := false }

/-- The connection to the system bus fails. -/
def envConnectFail : Env :=
  { allOk with connectOk := false }

/-- `true` exactly for the three agent-registration effects: exporting
the agent object, register-agent and request-default-agent. -/
def isRegistrationEffect (e : Effect) : Bool :=
  match e with
  | Effect.exportAgent _ => true
  | Effect.registerAgent _ _ => true
  | Effect.requestDefaultAgent _ => true
  | _ => false

/-- The value a trace writes to adapter property `prop`, when it writes
it exactly once. -/
def writtenValue (trace : List Effect) (prop : String) : Option Variant :=
  match trace.filterMap (fun e =>
      match e with
      | Effect.setProperty i p v =>
          if i = BLUEZ_ADAPTER_INTERFACE ∧ p = prop then some v else none
      | _ => none) with
  | [v] => some v
  | _ => none

/-- `true` exactly when the run ended in an escaping exception. -/
def isFatal (o : RunOutcome) : Bool :=
  match o with
  | RunOutcome.fatal _ => true
  | _ => false

/-- C1: `AuthorizeService(device, uuid)` returns normally exactly when
`uuid` equals the A2DP identifier; for every other uuid it raises
`org.bluez.Error.Rejected`; and the decision depends only on `uuid`,
never on `device`. -/
theorem authorizeService_policy (device device2 uuid : String) :
    (A2dpAgent.AuthorizeService device uuid = Except.ok () ↔ uuid = A2DP_UUID)
    ∧ (A2dpAgent.AuthorizeService device uuid = Except.error rejectedError
        ↔ uuid ≠ A2DP_UUID)
    ∧ rejectedError.name = "org.bluez.Error.Rejected"
    ∧ A2dpAgent.AuthorizeService device uuid
        = A2dpAgent.AuthorizeService device2 uuid := by
  unfold A2dpAgent.AuthorizeService
  by_cases h : uuid = A2DP_UUID <;> simp [h, rejectedError]

/-- C2: `RequestAuthorization(device)` always raises
`org.bluez.Error.Rejected` and never returns normally, for any device
and independently of any prior calls. -/
theorem requestAuthorization_always_rejected (device : String) :
    A2dpAgent.RequestAuthorization device = Except.error rejectedError
    ∧ rejectedError.name = "org.bluez.Error.Rejected"
    ∧ (∀ u : Unit, A2dpAgent.RequestAuthorization device ≠ Except.ok u)
    ∧ (∀ (st : AgentState) (pre : List Call),
        (handle (runCalls st pre) (Call.requestAuthorization device)).1
          = Reply.errReply rejectedError) := by
  refine ⟨rfl, rfl, ?_, ?_⟩
  · intro u h
    exact Except.noConfusion h
  · intro st pre
    rfl

/-- C3: `RequestPinCode` always returns exactly the string `"0000"` and
`RequestPasskey` always returns exactly the number `0`; both are
constant across devices and repeated calls and never raise. -/
theorem pin_and_passkey_constant (device device2 : String) :
    A2dpAgent.RequestPinCode device = Except.ok "0000"
    ∧ A2dpAgent.RequestPasskey device = Except.ok 0
    ∧ A2dpAgent.RequestPinCode device = A2dpAgent.RequestPinCode device2
    ∧ A2dpAgent.RequestPasskey device = A2dpAgent.RequestPasskey device2 :=
  ⟨rfl, rfl, rfl, rfl⟩

/-- C4: `Release`, `DisplayPinCode`, `DisplayPasskey`,
`RequestConfirmation` and `Cancel` complete without raising and return
no value, for every call and all arguments. -/
theorem noop_callbacks_never_raise (device pincode : String)
    (passkey entered : Nat) :
    A2dpAgent.Release = Except.ok ()
    ∧ A2dpAgent.DisplayPinCode device pincode = Except.ok ()
    ∧ A2dpAgent.DisplayPasskey device passkey entered = Except.ok ()
    ∧ A2dpAgent.RequestConfirmation device passkey = Except.ok ()
    ∧ A2dpAgent.Cancel = Except.ok () :=
  ⟨rfl, rfl, rfl, rfl, rfl⟩

/-- C5: when every external operation succeeds, `_run` performs its
effects in exactly the source order — connect, resolve and configure the
adapter (timeout set to never-expire `0` first, then the discoverable
flag set to enabled), resolve the agent manager, export the agent,
register-agent, request-default-agent — and the blocking wait is the
last step. -/
theorem startup_effect_order (device : String) :
    (runStartup device allOk).1 =
      [Effect.connectBus,
       Effect.introspect BLUEZ_BUS_NAME (BLUEZ_BUS_PATH ++ "/" ++ device),
       Effect.setProperty BLUEZ_ADAPTER_INTERFACE "DiscoverableTimeout" (Variant.u 0),
       Effect.setProperty BLUEZ_ADAPTER_INTERFACE "Discoverable" (Variant.b true),
       Effect.introspect BLUEZ_BUS_NAME BLUEZ_BUS_PATH,
       Effect.exportAgent AGENT_PATH,
       Effect.registerAgent AGENT_PATH "NoInputNoOutput",
       Effect.requestDefaultAgent AGENT_PATH,
       Effect.waitForDisconnect]
    ∧ writtenValue (runStartup device allOk).1 "DiscoverableTimeout" = some (Variant.u 0)
    ∧ writtenValue (runStartup device allOk).1 "Discoverable" = some (Variant.b true)
    ∧ (runStartup device allOk).1.getLast? = some Effect.waitForDisconnect
    ∧ (runStartup device allOk).2 = RunOutcome.completed := by
  refine ⟨rfl, ?_, ?_, rfl, rfl⟩ <;>
    simp [runStartup, allOk, writtenValue, BLUEZ_ADAPTER_INTERFACE]

/-- C6: if resolving the adapter or setting either discoverability
property fails, startup ends in a fatal error and the trace contains no
agent-registration effect: the agent is never exported, registered or
made default. -/
theorem startup_aborts_before_export (device : String) (env : Env)
    (h : env.introspectAdapterOk = false
        ∨ env.setDiscoverableTimeoutOk = false
        ∨ env.setDiscoverableOk = false) :
    isFatal (runStartup device env).2 = true
    ∧ (runStartup device env).1.filter isRegistrationEffect = [] := by
  rcases h with h | h | h <;>
    cases hc : env.connectOk <;>
    cases h2 : env.introspectAdapterOk <;>
    cases h3 : env.setDiscoverableTimeoutOk <;>
    cases h4 : env.setDiscoverableOk <;>
    simp_all [runStartup, isRegistrationEffect, isFatal]

/-- Witness for C6: with adapter introspection failing concretely,
startup is fatal and no registration effect occurs. -/
theorem startup_aborts_before_export_witness :
    isFatal (runStartup "hci0" envAdapterFail).2 = true
    ∧ (runStartup "hci0" envAdapterFail).1.filter isRegistrationEffect = [] :=
  startup_aborts_before_export "hci0" envAdapterFail (Or.inl rfl)

/-- C7: the registration effects of a successful startup are exactly an
export, a register-agent with capability `"NoInputNoOutput"` and a
request-default-agent, all three at the same fixed object path
`/local/ad2pagent`. -/
theorem registration_fixed_path_and_capability (device : String) :
    (runStartup device allOk).1.filter isRegistrationEffect =
      [Effect.exportAgent AGENT_PATH,
       Effect.registerAgent AGENT_PATH "NoInputNoOutput",
       Effect.requestDefaultAgent AGENT_PATH]
    ∧ AGENT_PATH = "/local/ad2pagent" :=
  ⟨rfl, rfl⟩

/-- C8: a `KeyboardInterrupt` during the blocking wait (after a fully
successful startup) is absorbed by `main` and the process exits with
code 0, while any startup failure escapes and yields exit code 1. -/
theorem interrupt_clean_exit_and_failure_nonzero (device : String)
    (env envFail : Env) (hok : startupOk env = true)
    (hint : env.interruptDuringWait = true)
    (hfail : startupOk envFail = false) :
    (runStartup device env).2 = RunOutcome.interrupted
    ∧ exitCode device env = 0
    ∧ exitCode device envFail = 1 := by
  simp only [startupOk, Bool.and_eq_true] at hok hfail
  obtain ⟨⟨⟨⟨⟨⟨h1, h2⟩, h3⟩, h4⟩, h5⟩, h6⟩, h7⟩ := hok
  refine ⟨?_, ?_, ?_⟩
  · simp [runStartup, h1, h2, h3, h4, h5, h6, h7, hint]
  · simp [exitCode, runStartup, h1, h2, h3, h4, h5, h6, h7, hint]
  · cases g1 : envFail.connectOk <;>
    cases g2 : envFail.introspectAdapterOk <;>
    cases g3 : envFail.setDiscoverableTimeoutOk <;>
    cases g4 : envFail.setDiscoverableOk <;>
    cases g5 : envFail.introspectBluezOk <;>
    cases g6 : envFail.registerAgentOk <;>
    cases g7 : envFail.requestDefaultAgentOk <;>
    simp_all [exitCode, runStartup]

/-- Witness for C8: concretely, an interrupt during the wait exits 0 and
a failed bus connection exits 1. -/
theorem interrupt_clean_exit_and_failure_nonzero_witness :
    (runStartup "hci0" envInterrupt).2 = RunOutcome.interrupted
    ∧ exitCode "hci0" envInterrupt = 0
    ∧ exitCode "hci0" envConnectFail = 1 :=
  interrupt_clean_exit_and_failure_nonzero "hci0" envInterrupt envConnectFail
    rfl rfl rfl

/-- C9: every callback is stateless and history-independent: dispatching
a call leaves the instance state unchanged, any sequence of prior calls
leaves the state unchanged, and the full outcome of a call after any
history equals its outcome with no history. -/
theorem callbacks_stateless_and_history_independent
    (st : AgentState) (pre : List Call) (c : Call) :
    (handle st c).2 = st
    ∧ runCalls st pre = st
    ∧ handle (runCalls st pre) c = handle st c := by
  have hsnd : ∀ (s : AgentState) (cc : Call), (handle s cc).2 = s := by
    intro s cc; cases cc <;> rfl
  have hrun : ∀ (cs : List Call) (s : AgentState), runCalls s cs = s := by
    intro cs
    induction cs with
    | nil => intro s; rfl
    | cons hd tl ih =>
        intro s
        show runCalls ((handle s hd).2) tl = s
        rw [hsnd s hd]
        exact ih s
  exact ⟨hsnd st c, hrun pre st, by rw [hrun pre st]⟩

/-- C10: the authorization gate is an exact, case-sensitive comparison:
the uppercase form of the A2DP UUID lowercases to `A2DP_UUID` yet is a
different string, and `AuthorizeService` rejects it with
`org.bluez.Error.Rejected`. -/
theorem authorizeService_case_sensitive (device : String) :
    "0000110D-0000-1000-8000-00805F9B34FB".data.map Char.toLower = A2DP_UUID.data
    ∧ "0000110D-0000-1000-8000-00805F9B34FB" ≠ A2DP_UUID
    ∧ A2dpAgent.AuthorizeService device "0000110D-0000-1000-8000-00805F9B34FB"
        = Except.error rejectedError := by
  refine ⟨by decide, by decide, ?_⟩
  simp [A2dpAgent.AuthorizeService, A2DP_UUID]

end BtA2dpAgent
